import Mathlib

/-!
Shallow embedding of the ai-margin-optimize services layer, together with
verification of the specification claims about it.

Embedded source files:
* `services/cdsl_pledge_service.py` (demo-mode pledge workflow)
* `services/prediction_service.py` (margin optimization)
* `services/broker_factory.py` (broker registry)
* `services/unified_broker_service.py` (unified account facade)

Python integers are modelled as `Int`, Python floats appearing in the pledge
and optimization arithmetic as `ℚ` (the source only ever combines decimal
literals by field arithmetic), dicts as insertion-ordered association lists,
and fallible calls by explicit result structures mirroring the
`{success: ..., ...}` envelopes of the source. Wall-clock dates
(`datetime.now()` fields) and network branches (the service is in demo mode
whenever no API key is configured, which is the behavior the spec describes)
are outside the embedding.
-/

namespace AIMarginOptimize

/-- Python dict lookup on an insertion-ordered association list:
the value stored at the first matching key. -/
def assocGet {α : Type} (d : List (String × α)) (k : String) : Option α :=
  (d.find? (fun kv => kv.1 == k)).map Prod.snd

/-- Python dict assignment `d[k] = v`: overwrite the value at an existing key
in place, otherwise append a new binding at the end. -/
def assocSet {α : Type} : List (String × α) → String → α → List (String × α)
  | [], k, v => [(k, v)]
  | kv :: rest, k, v => if kv.1 == k then (k, v) :: rest else kv :: assocSet rest k v

/-- Python `str.startswith`, computed on the character list (the built-in
`String.startsWith` works on byte positions, which the kernel cannot
evaluate). -/
def strStartsWith (s pat : String) : Bool :=
  pat.toList.isPrefixOf s.toList

/-- Python `str.lower` on the ASCII broker names used here, computed on the
character list. -/
def strToLower (s : String) : String :=
  String.mk (s.toList.map Char.toLower)

namespace CDSL

/-- An entry of `demo_pledged_holdings` in `CDSLPledgeService`.
The `pledge_date` field is omitted: it is taken from the wall clock. -/
structure Holding where
  pledge_id : String
  symbol : String
  isin : String
  quantity : Int
  status : String
  haircut : ℚ
  value : ℚ
  collateral_value : ℚ
deriving DecidableEq

/-- An entry of `demo_pledge_requests`. For a pledge request the dict key
`pledge_id` holds the own id of the request and there is no `unpledge_id` key;
for an unpledge request `unpledge_id` holds the own id and `pledge_id` the
referenced pledge. The `request_date` field is omitted (wall clock). -/
structure Request where
  unpledge_id : Option String
  pledge_id : String
  symbol : String
  isin : String
  quantity : Int
  status : String
  reason : Option String
deriving DecidableEq

/-- The demo-mode state of `CDSLPledgeService`: the pledged holdings list,
the pledge/unpledge request dict and the numeric part of the
`next_pledge_id` counter (the source keeps the string `"PL{n}"` and
re-parses the digits after `"PL"` on every generation). -/
structure State where
  demo_pledged_holdings : List Holding
  demo_pledge_requests : List (String × Request)
  next_pledge_id : Nat
deriving DecidableEq

/-- The `{success: ..., ...}` result dict returned by the pledge operations. -/
structure Result where
  success : Bool
  message : Option String := none
  error : Option String := none
  pledge_id : Option String := none
  unpledge_id : Option String := none
  status : Option String := none
deriving DecidableEq

/-- First entry of the constructor field `demo_pledged_holdings`. -/
def initHolding1 : Holding :=
  { pledge_id := "PL12345", symbol := "RELIANCE", isin := "INE002A01018",
    quantity := 5, status := "ACTIVE", haircut := 0.20,
    value := 132537.50, collateral_value := 106030.00 }

/-- Second entry of the constructor field `demo_pledged_holdings`. -/
def initHolding2 : Holding :=
  { pledge_id := "PL12346", symbol := "HDFCBANK", isin := "INE040A01034",
    quantity := 8, status := "ACTIVE", haircut := 0.15,
    value := 124040.00, collateral_value := 105434.00 }

/-- The state set up by `CDSLPledgeService.__init__` in demo mode. -/
def initialState : State :=
  { demo_pledged_holdings := [initHolding1, initHolding2],
    demo_pledge_requests := [],
    next_pledge_id := 12347 }

/-- `_generate_pledge_id`: hand out `"PL{n}"` and advance the counter. -/
def generate_pledge_id (s : State) : String × State :=
  ("PL" ++ toString s.next_pledge_id, { s with next_pledge_id := s.next_pledge_id + 1 })

/-- `create_pledge_request` (demo mode): store a new PENDING_AUTHORIZATION
request under a fresh id and report success. No validation is performed. -/
def create_pledge_request (s : State) (stock_id : String) (quantity : Int)
    (reason : Option String) : Result × State :=
  let p := generate_pledge_id s
  let req : Request :=
    { unpledge_id := none, pledge_id := p.1, symbol := stock_id,
      isin := "IN" ++ stock_id ++ "12345", quantity := quantity,
      status := "PENDING_AUTHORIZATION", reason := reason }
  ({ success := true,
     message := some "Pledge request created successfully. OTP has been sent to your registered mobile.",
     pledge_id := some p.1, status := some "PENDING_AUTHORIZATION" },
   { p.2 with demo_pledge_requests := assocSet p.2.demo_pledge_requests p.1 req })

/-- `unpledge_request` (demo mode): look for the first pledged holding with
the given id; if found, store an unpledge request under `"UP" ++ id.drop 2`
whose quantity is `min requested remaining`, else report not-found. -/
def unpledge_request (s : State) (pledge_id : String) (quantity : Int)
    (reason : Option String) : Result × State :=
  match s.demo_pledged_holdings.find? (fun p => p.pledge_id == pledge_id) with
  | some pledge =>
      let uid := "UP" ++ pledge_id.drop 2
      let req : Request :=
        { unpledge_id := some uid, pledge_id := pledge_id, symbol := pledge.symbol,
          isin := pledge.isin, quantity := min quantity pledge.quantity,
          status := "PENDING_AUTHORIZATION", reason := reason }
      ({ success := true,
         message := some "Unpledge request created successfully. OTP has been sent to your registered mobile.",
         unpledge_id := some uid, status := some "PENDING_AUTHORIZATION" },
       { s with demo_pledge_requests := assocSet s.demo_pledge_requests uid req })
  | none =>
      ({ success := false, error := some ("Pledge ID " ++ pledge_id ++ " not found") }, s)

/-- OTP validation in `authorize_pledge`:
`not otp or len(otp) != 6 or not otp.isdigit()` rejects. -/
def validOtp : Option String → Bool
  | none => false
  | some otp => otp.length == 6 && otp.toList.all Char.isDigit

/-- The holdings update applied when an unpledge request is authorized:
find the first holding with the linked pledge id, subtract the request
quantity, and drop the entry when the result is `≤ 0`. -/
def reduce_pledged (pid : String) (q : Int) : List Holding → List Holding
  | [] => []
  | h :: rest =>
      if h.pledge_id == pid then
        if h.quantity - q ≤ 0 then rest
        else { h with quantity := h.quantity - q } :: rest
      else h :: reduce_pledged pid q rest

/-- `authorize_pledge` (demo mode). The current status of the request is never
consulted: any stored request with that id and a well-formed OTP is marked
COMPLETED (again) and the side effect runs (again). -/
def authorize_pledge (s : State) (pledge_id : String) (otp : Option String) :
    Result × State :=
  match assocGet s.demo_pledge_requests pledge_id with
  | some request =>
      if validOtp otp = false then
        ({ success := false, error := some "Invalid OTP. Please provide a valid 6-digit OTP." }, s)
      else
        let ok : Result :=
          { success := true,
            message := some ("Pledge/Unpledge request " ++ pledge_id ++ " authorized successfully"),
            status := some "COMPLETED" }
        if strStartsWith pledge_id "PL" then
          let newHolding : Holding :=
            { pledge_id := pledge_id, symbol := request.symbol, isin := request.isin,
              quantity := request.quantity, status := "ACTIVE", haircut := 0.20,
              value := (request.quantity : ℚ) * 2650.75,
              collateral_value := (request.quantity : ℚ) * 2650.75 * 0.80 }
          (ok, { s with
                   demo_pledge_requests :=
                     assocSet s.demo_pledge_requests pledge_id { request with status := "COMPLETED" },
                   demo_pledged_holdings := s.demo_pledged_holdings ++ [newHolding] })
        else if strStartsWith pledge_id "UP" then
          (ok, { s with
                   demo_pledge_requests :=
                     assocSet s.demo_pledge_requests pledge_id { request with status := "COMPLETED" },
                   demo_pledged_holdings :=
                     reduce_pledged request.pledge_id request.quantity s.demo_pledged_holdings })
        else (ok, s)
  | none =>
      ({ success := false, error := some ("Pledge ID " ++ pledge_id ++ " not found") }, s)

/-- `get_pledged_holdings` (demo mode): a success envelope carrying the
current pledged holdings. -/
def get_pledged_holdings (s : State) : Bool × List Holding :=
  (true, s.demo_pledged_holdings)

/-- One step of a single-pledge lifecycle: an unpledge request against the
pledge, or an authorization attempt for its unpledge request id. -/
inductive UnpledgeOp where
  | request (quantity : Int) (reason : Option String)
  | authorize (otp : Option String)

/-- The unpledge request id the source derives from a pledge id. -/
def unpledgeIdOf (pid : String) : String :=
  "UP" ++ pid.drop 2

/-- Run one lifecycle operation against the service state. -/
def lifecycleStep (pid : String) (s : State) : UnpledgeOp → State
  | .request q r => (unpledge_request s pid q r).2
  | .authorize otp => (authorize_pledge s (unpledgeIdOf pid) otp).2

/-- Run a sequence of lifecycle operations. -/
def runLifecycle (pid : String) (s : State) : List UnpledgeOp → State
  | [] => s
  | op :: ops => runLifecycle pid (lifecycleStep pid s op) ops

/-- The quantity the authorization loop deducts from the pledged holdings
in one operation: the stored request quantity whenever the request exists,
the OTP is well formed and a holding with the linked pledge id is present;
otherwise 0. -/
def opDeduction (pid : String) (s : State) : UnpledgeOp → Int
  | .request _ _ => 0
  | .authorize otp =>
      match assocGet s.demo_pledge_requests (unpledgeIdOf pid) with
      | some req =>
          if validOtp otp &&
              s.demo_pledged_holdings.any (fun h => h.pledge_id == req.pledge_id) then
            req.quantity
          else 0
      | none => 0

/-- Total quantity removed by completed unpledge authorizations along a
run. -/
def runTotal (pid : String) (s : State) : List UnpledgeOp → Int
  | [] => 0
  | op :: ops => opDeduction pid s op + runTotal pid (lifecycleStep pid s op) ops

/-- Every authorization in the trace happens while the stored unpledge
request is not yet COMPLETED: each unpledge request is authorized at most
once. -/
def atMostOnceAuth (pid : String) (s : State) : List UnpledgeOp → Bool
  | [] => true
  | op :: ops =>
      (match op with
       | .authorize _ =>
           match assocGet s.demo_pledge_requests (unpledgeIdOf pid) with
           | some req => req.status != "COMPLETED"
           | none => true
       | .request _ _ => true) &&
      atMostOnceAuth pid (lifecycleStep pid s op) ops

/-- A state holding a single pledged record `PL12345` of quantity `q0`,
the start of the lifecycle considered by the invariant claims. -/
def lifecycleInit (q0 : Int) : State :=
  { demo_pledged_holdings := [{ initHolding1 with quantity := q0 }],
    demo_pledge_requests := [],
    next_pledge_id := 12347 }

/-- The remaining quantity of a pledge as visible through
`get_pledged_holdings`. -/
def remaining (s : State) (pid : String) : Option Int :=
  ((get_pledged_holdings s).2.find? (fun h => h.pledge_id == pid)).map Holding.quantity

/-- Inductive invariant of the single-pledge lifecycle: either the record
is gone and exactly `q0` has been removed in total, or the record remains
with positive quantity `q0 - t`, and any stored unpledge request for it
references `PL12345` and, while not yet COMPLETED, asks for at most the
remaining quantity. -/
def GoodState (q0 t : Int) (s : State) : Prop :=
  (s.demo_pledged_holdings = [] ∧ t = q0) ∨
  (∃ h : Holding, s.demo_pledged_holdings = [h] ∧ h.pledge_id = "PL12345" ∧
    0 < h.quantity ∧ t = q0 - h.quantity ∧
    ∀ req : Request, assocGet s.demo_pledge_requests "UP12345" = some req →
      req.pledge_id = "PL12345" ∧ (req.status ≠ "COMPLETED" → req.quantity ≤ h.quantity))

end CDSL

namespace Prediction

/-- The slice of the prepared feature dict that `_rule_based_optimization`
reads through `features.get(key, default)`; an absent key is `none`. -/
structure Features where
  avg_volatility : Option ℚ := none
  nifty_change_pct : Option ℚ := none
  overall_sentiment_score : Option ℚ := none
  overall_sentiment_confidence : Option ℚ := none
  avg_correlation : Option ℚ := none

/-- The slice of the portfolio dict the optimizer reads:
the used_margin entry of the margin sub-dict, defaulting to 0. -/
structure Portfolio where
  used_margin : Option ℚ := none

/-- The per-factor breakdown emitted by the rule-based path
(each value already scaled by 100, as in the source). -/
structure Factors where
  base_reduction : ℚ
  volatility_factor : ℚ
  index_factor : ℚ
  sentiment_factor : ℚ
  correlation_factor : ℚ

/-- The optimization result dict. -/
structure OptimizationResult where
  current_margin : ℚ
  optimized_margin : ℚ
  reduction_percent : ℚ
  potential_savings : ℚ
  method : String
  confidence : ℚ
  factors : Option Factors := none

/-- `PredictionService._rule_based_optimization` on already-prepared
features. -/
def rule_based_optimization (portfolio : Portfolio) (features : Features) :
    OptimizationResult :=
  let current_margin := portfolio.used_margin.getD 0
  let base_reduction : ℚ := 0.05
  let avg_volatility := features.avg_volatility.getD 0
  let volatility_factor := max 0 (0.10 - avg_volatility)
  let index_change := features.nifty_change_pct.getD 0
  let index_factor : ℚ := if index_change > 0 then 0.02 else -0.02
  let sentiment_score := features.overall_sentiment_score.getD 0
  let sentiment_confidence := features.overall_sentiment_confidence.getD 0
  let sentiment_factor := sentiment_score * sentiment_confidence * 0.05
  let correlation_factor := (1 - features.avg_correlation.getD 0.5) * 0.04
  let reduction_percentage :=
    base_reduction + volatility_factor + index_factor + sentiment_factor + correlation_factor
  let reduction_percentage := max 0.05 (min 0.25 reduction_percentage)
  let optimized_margin := current_margin * (1 - reduction_percentage)
  let savings := current_margin - optimized_margin
  { current_margin := current_margin, optimized_margin := optimized_margin,
    reduction_percent := reduction_percentage * 100, potential_savings := savings,
    method := "rule_based", confidence := 0.65,
    factors := some
      { base_reduction := base_reduction * 100,
        volatility_factor := volatility_factor * 100,
        index_factor := index_factor * 100,
        sentiment_factor := sentiment_factor * 100,
        correlation_factor := correlation_factor * 100 } }

/-- The loaded model, abstracted by what its `predict` call does on the
prepared feature row: return a reduction fraction, or raise. -/
inductive ModelBehavior where
  | predicts (reduction : ℚ)
  | raises

/-- `PredictionService.predict_optimal_margin` on already-prepared features:
with no model (or a model whose predict raises) the rule-based path runs;
otherwise `optimized_margin = current_margin * (1 - predicted_reduction)`
with no clamping of the predicted reduction. -/
def predict_optimal_margin (model : Option ModelBehavior) (portfolio : Portfolio)
    (features : Features) : OptimizationResult :=
  match model with
  | none => rule_based_optimization portfolio features
  | some .raises => rule_based_optimization portfolio features
  | some (.predicts predicted_margin_reduction) =>
      let current_margin := portfolio.used_margin.getD 0
      let optimized_margin := current_margin * (1 - predicted_margin_reduction)
      let savings := current_margin - optimized_margin
      { current_margin := current_margin, optimized_margin := optimized_margin,
        reduction_percent := predicted_margin_reduction * 100,
        potential_savings := savings, method := "ml_model", confidence := 0.85 }

end Prediction

namespace Factory

/-- A broker adapter class as the registry sees it: its name and whether it
is a subclass of `BrokerInterface` (the `issubclass` check, i.e. whether it
carries the full abstract capability set of the interface). -/
structure AdapterClass where
  class_name : String
  is_broker_interface_subclass : Bool
deriving DecidableEq

/-- The `BrokerFactory._adapters` class dict. -/
abbrev Registry := List (String × AdapterClass)

/-- An adapter instance: the class it was created from plus the
construction config. -/
structure AdapterInstance where
  cls : AdapterClass
  config : List (String × String)
deriving DecidableEq

/-- `BrokerFactory.register_adapter`: raise `TypeError` unless the class
subclasses `BrokerInterface`, else store it under the lowercased name
(overwriting any previous binding). -/
def register_adapter (reg : Registry) (broker_name : String) (cls : AdapterClass) :
    Except String Registry :=
  if cls.is_broker_interface_subclass = false then
    .error ("Adapter must implement BrokerInterface: " ++ cls.class_name)
  else
    .ok (assocSet reg (strToLower broker_name) cls)

/-- `BrokerFactory.get_supported_brokers`: the registered names. -/
def get_supported_brokers (reg : Registry) : List String :=
  reg.map Prod.fst

/-- `BrokerFactory.create`: raise `ValueError` naming the supported brokers
for an unregistered name, else instantiate the registered class. -/
def create (reg : Registry) (broker_name : String) (config : List (String × String)) :
    Except String AdapterInstance :=
  let name := strToLower broker_name
  match assocGet reg name with
  | none =>
      .error ("Unsupported broker: " ++ name ++ ". Supported brokers: " ++
        String.intercalate ", " (get_supported_brokers reg))
  | some cls => .ok { cls := cls, config := config }

/-- `BrokerFactory.is_supported`: membership of the lowercased name. -/
def is_supported (reg : Registry) (broker_name : String) : Bool :=
  (assocGet reg (strToLower broker_name)).isSome

/-- The `ZerodhaAdapter` class (subclasses `BrokerInterface`). -/
def ZerodhaAdapterClass : AdapterClass :=
  { class_name := "ZerodhaAdapter", is_broker_interface_subclass := true }

/-- The `FYERSAdapter` class (subclasses `BrokerInterface`). -/
def FYERSAdapterClass : AdapterClass :=
  { class_name := "FYERSAdapter", is_broker_interface_subclass := true }

/-- The registry after the module-level registrations in
`unified_broker_service.py` (zerodha, then fyers). -/
def initialRegistry : Registry :=
  [("zerodha", ZerodhaAdapterClass), ("fyers", FYERSAdapterClass)]

end Factory

namespace Unified

/-- A `{success: ..., ...}` result dict, with the payload lists the unified
layer forwards kept opaque as key-value entries. -/
structure SubResult where
  success : Bool
  error : Option String := none
  message : Option String := none
  payload : List (String × String) := []
deriving DecidableEq

/-- A constructed broker adapter instance, abstracted by its identity and
by the result each of its calls returns in the ambient environment.
`access_token` is the session field of the adapter, `none` on construction. -/
structure Adapter where
  broker_name : String
  access_token : Option String := none
  connect_result : SubResult
  disconnect_result : SubResult
  holdings_result : SubResult
  positions_result : SubResult
  margin_result : SubResult
  place_order_result : SubResult
  order_status_result : SubResult
  order_history_result : SubResult
deriving DecidableEq

/-- The mutable state of `UnifiedBrokerService`. `pledge_service` carries
the result its `get_pledged_holdings()` call returns (the constructor
always initializes the service; the source still guards for `None`). -/
structure UState where
  broker_adapter : Option Adapter
  connected_broker : Option String
  pledge_service : Option SubResult
deriving DecidableEq

/-- The `{"success": False, "error": "No broker connected"}` envelope. -/
def noBrokerError : SubResult :=
  { success := false, error := some "No broker connected" }

/-- What `get_portfolio` returns: either some sub-result dict passed through
unchanged (a failure) or the combined portfolio envelope, whose
`pledged_holdings` key is present only when the pledge lookup succeeded. -/
inductive PortfolioReturn where
  | passthrough (r : SubResult)
  | combined (holdings positions margin : List (String × String))
      (pledged_holdings : Option (List (String × String)))
deriving DecidableEq

/-- `UnifiedBrokerService.get_portfolio`. -/
def get_portfolio (st : UState) : PortfolioReturn :=
  match st.broker_adapter with
  | none => .passthrough noBrokerError
  | some ad =>
      if ad.holdings_result.success = false then .passthrough ad.holdings_result
      else if ad.positions_result.success = false then .passthrough ad.positions_result
      else if ad.margin_result.success = false then .passthrough ad.margin_result
      else
        let pledged : Option (List (String × String)) :=
          match st.pledge_service with
          | some pledged_result =>
              if pledged_result.success then some pledged_result.payload else none
          | none => none
        .combined ad.holdings_result.payload ad.positions_result.payload
          ad.margin_result.payload pledged

/-- `UnifiedBrokerService.disconnect`. -/
def disconnect (st : UState) : SubResult × UState :=
  match st.broker_adapter with
  | none => ({ success := true, message := some "No broker connected" }, st)
  | some ad =>
      if ad.disconnect_result.success then
        (ad.disconnect_result, { st with broker_adapter := none, connected_broker := none })
      else (ad.disconnect_result, st)

/-- `UnifiedBrokerService.place_order` (the order params are forwarded to
the adapter, whose response is part of the adapter value). -/
def place_order (st : UState) (order_params : List (String × String)) : SubResult :=
  match st.broker_adapter with
  | none => noBrokerError
  | some ad => ad.place_order_result

/-- `UnifiedBrokerService.get_order_status`. -/
def get_order_status (st : UState) (order_id : String) : SubResult :=
  match st.broker_adapter with
  | none => noBrokerError
  | some ad => ad.order_status_result

/-- `UnifiedBrokerService.get_order_history`. -/
def get_order_history (st : UState) : SubResult :=
  match st.broker_adapter with
  | none => noBrokerError
  | some ad => ad.order_history_result

/-- Adapter construction through `BrokerFactory.create(broker)`: the
environment determines the behavior of the adapter built for a broker
name; the constructor initializes the session token to `None`. -/
def construct (env : String → Adapter) (broker : String) : Adapter :=
  { env broker with access_token := none }

/-- `UnifiedBrokerService.connect`: check support, then replace the stored
adapter with a freshly constructed one, then attempt the adapter
connection; `connected_broker` is updated only on success. -/
def connect (st : UState) (env : String → Adapter) (broker : String) :
    SubResult × UState :=
  if Factory.is_supported Factory.initialRegistry broker = false then
    ({ success := false,
       error := some ("Unsupported broker: " ++ broker ++ ". Supported brokers: " ++
         String.intercalate ", " (Factory.get_supported_brokers Factory.initialRegistry)) },
     st)
  else
    let ad := construct env broker
    let result := ad.connect_result
    if result.success then
      (result, { st with broker_adapter := some ad, connected_broker := some broker })
    else
      (result, { st with broker_adapter := some ad })

/-- Fixture: a success result with empty payload. -/
def okResult : SubResult :=
  { success := true }

/-- Fixture: a failing credential exchange. -/
def badCredsResult : SubResult :=
  { success := false, error := some "Invalid credentials" }

/-- Fixture: an adapter whose every call succeeds. -/
def okAdapterFixture : Adapter :=
  { broker_name := "zerodha", connect_result := okResult, disconnect_result := okResult,
    holdings_result := okResult, positions_result := okResult, margin_result := okResult,
    place_order_result := okResult, order_status_result := okResult,
    order_history_result := okResult }

/-- Fixture: an adapter whose connect call fails. -/
def failingConnectAdapterFixture : Adapter :=
  { okAdapterFixture with broker_name := "fyers", connect_result := badCredsResult }

end Unified

/-! ## Helper lemmas -/

theorem assocGet_assocSet_self {α : Type} (d : List (String × α)) (k : String) (v : α) :
    assocGet (assocSet d k v) k = some v := by
  induction d with
  | nil => simp [assocSet, assocGet]
  | cons kv rest ih =>
    by_cases h : kv.1 == k
    · simp [assocSet, assocGet, h]
    · simp only [assocSet, h, if_false]
      simpa [assocGet, List.find?, h] using ih

/-- The clamped reduction fraction of the rule-based path, written out as
in `_rule_based_optimization`. -/
def ruleReduction (f : Prediction.Features) : ℚ :=
  max 0.05 (min 0.25
    (0.05 + max 0 (0.10 - f.avg_volatility.getD 0) +
      (if f.nifty_change_pct.getD 0 > 0 then 0.02 else -0.02) +
      f.overall_sentiment_score.getD 0 * f.overall_sentiment_confidence.getD 0 * 0.05 +
      (1 - f.avg_correlation.getD 0.5) * 0.04))

theorem rule_based_reduction_percent (p : Prediction.Portfolio) (f : Prediction.Features) :
    (Prediction.rule_based_optimization p f).reduction_percent = ruleReduction f * 100 :=
  rfl

theorem rule_based_potential_savings (p : Prediction.Portfolio) (f : Prediction.Features) :
    (Prediction.rule_based_optimization p f).potential_savings
      = p.used_margin.getD 0 - p.used_margin.getD 0 * (1 - ruleReduction f) :=
  rfl

theorem ruleReduction_mem (f : Prediction.Features) :
    0.05 ≤ ruleReduction f ∧ ruleReduction f ≤ 0.25 := by
  constructor
  · exact le_max_left _ _
  · exact max_le (by norm_num) (min_le_left _ _)

theorem rule_savings_bounds (p : Prediction.Portfolio) (f : Prediction.Features)
    (h0 : 0 ≤ p.used_margin.getD 0) :
    0.05 * p.used_margin.getD 0 ≤ (Prediction.rule_based_optimization p f).potential_savings ∧
    (Prediction.rule_based_optimization p f).potential_savings ≤ 0.25 * p.used_margin.getD 0 := by
  rw [rule_based_potential_savings]
  obtain ⟨h1, h2⟩ := ruleReduction_mem f
  constructor
  · nlinarith
  · nlinarith

/-! ## C3 -/

/-- C3: with no model loaded the rule-based path runs, its reduction is
`clamp [0.05, 0.25] (0.05 + max 0 (0.10 − avg_volatility) + (0.02 if the
index change is positive else −0.02) + score·confidence·0.05 +
(1 − avg_correlation)·0.04)`, and at current_margin 4,200,000 with
avg_volatility 0.05, index up, sentiment 0.6 at confidence 0.8 and
correlation 0.4 the reduction is 0.168 (16.8%) and the optimized margin is
4,200,000 × (1 − 0.168) = 3,494,400. -/
theorem C3_rule_based_optimization :
    (∀ (p : Prediction.Portfolio) (f : Prediction.Features),
        Prediction.predict_optimal_margin none p f = Prediction.rule_based_optimization p f) ∧
    (∀ (p : Prediction.Portfolio) (f : Prediction.Features),
        (Prediction.rule_based_optimization p f).reduction_percent = ruleReduction f * 100) ∧
    (let ex := Prediction.rule_based_optimization { used_margin := some 4200000 }
        { avg_volatility := some 0.05, nifty_change_pct := some 1.2,
          overall_sentiment_score := some 0.6, overall_sentiment_confidence := some 0.8,
          avg_correlation := some 0.4 }
     ex.reduction_percent = 16.8 ∧ ex.optimized_margin = 3494400 ∧
     ex.potential_savings = 705600 ∧ ex.method = "rule_based" ∧ ex.confidence = 0.65) := by
  refine ⟨fun p f => rfl, fun p f => rfl, ?_, ?_, ?_, rfl, rfl⟩
  · show ruleReduction _ * 100 = 16.8
    norm_num [ruleReduction, max_def, min_def]
  · show (4200000 : ℚ) * (1 - ruleReduction _) = 3494400
    norm_num [ruleReduction, max_def, min_def]
  · show (4200000 : ℚ) - 4200000 * (1 - ruleReduction _) = 705600
    norm_num [ruleReduction, max_def, min_def]

/-! ## C4 -/

/-- C4 counterexample: on the model path the predicted reduction is not
clamped, so with a loaded model predicting a 0.5 reduction and
current_margin = 100 ≥ 0 the successful result has potential_savings 50,
above the claimed bound 0.25 × 100 = 25. -/
theorem C4_counterexample :
    (0 : ℚ) ≤ 100 ∧
    (Prediction.predict_optimal_margin (some (.predicts 0.5))
        { used_margin := some 100 } { }).method = "ml_model" ∧
    (Prediction.predict_optimal_margin (some (.predicts 0.5))
        { used_margin := some 100 } { }).potential_savings = 50 ∧
    ¬ ((Prediction.predict_optimal_margin (some (.predicts 0.5))
        { used_margin := some 100 } { }).potential_savings ≤ 0.25 * 100) := by
  refine ⟨by norm_num, rfl, ?_, ?_⟩ <;>
    norm_num [Prediction.predict_optimal_margin]

/-- C4 amended: on the rule-based paths (no model loaded, or the model
call raises) potential_savings lies within [0.05, 0.25]·current_margin for
every current_margin ≥ 0; on the model path potential_savings equals
current_margin × predicted_reduction with no clamping, so the bounds hold
there exactly when the prediction of the model lies in [0.05, 0.25]. -/
theorem C4_savings_bounds (p : Prediction.Portfolio) (f : Prediction.Features)
    (h0 : 0 ≤ p.used_margin.getD 0) :
    (0.05 * p.used_margin.getD 0 ≤
        (Prediction.predict_optimal_margin none p f).potential_savings ∧
      (Prediction.predict_optimal_margin none p f).potential_savings ≤
        0.25 * p.used_margin.getD 0) ∧
    (0.05 * p.used_margin.getD 0 ≤
        (Prediction.predict_optimal_margin (some .raises) p f).potential_savings ∧
      (Prediction.predict_optimal_margin (some .raises) p f).potential_savings ≤
        0.25 * p.used_margin.getD 0) ∧
    (∀ q : ℚ, (Prediction.predict_optimal_margin (some (.predicts q)) p f).potential_savings
        = p.used_margin.getD 0 * q) ∧
    (∀ q : ℚ, 0.05 ≤ q → q ≤ 0.25 →
      0.05 * p.used_margin.getD 0 ≤
          (Prediction.predict_optimal_margin (some (.predicts q)) p f).potential_savings ∧
        (Prediction.predict_optimal_margin (some (.predicts q)) p f).potential_savings ≤
          0.25 * p.used_margin.getD 0) := by
  have hsav : ∀ q : ℚ,
      (Prediction.predict_optimal_margin (some (.predicts q)) p f).potential_savings
        = p.used_margin.getD 0 * q := by
    intro q
    show p.used_margin.getD 0 - p.used_margin.getD 0 * (1 - q) = p.used_margin.getD 0 * q
    ring
  refine ⟨rule_savings_bounds p f h0, rule_savings_bounds p f h0, hsav, ?_⟩
  intro q hq1 hq2
  rw [hsav]
  constructor
  · nlinarith
  · nlinarith

/-- C4 witness: the amended bounds at a concrete portfolio and a model
predicting a 0.10 reduction. -/
theorem C4_savings_bounds_witness :
    0.05 * ((Prediction.Portfolio.mk (some 100)).used_margin.getD 0) ≤
      (Prediction.predict_optimal_margin (some (.predicts 0.10))
        (Prediction.Portfolio.mk (some 100)) { }).potential_savings ∧
    (Prediction.predict_optimal_margin (some (.predicts 0.10))
        (Prediction.Portfolio.mk (some 100)) { }).potential_savings ≤
      0.25 * ((Prediction.Portfolio.mk (some 100)).used_margin.getD 0) :=
  (C4_savings_bounds (Prediction.Portfolio.mk (some 100)) { } (by norm_num)).2.2.2
    0.10 (by norm_num) (by norm_num)

/-! ## C7 -/

/-- C7 counterexample: `create_pledge_request` with the non-positive
quantity −5 succeeds and stores a PENDING_AUTHORIZATION record carrying
−5, instead of failing validation with no record created. -/
theorem C7_counterexample :
    (CDSL.create_pledge_request CDSL.initialState "TCS" (-5) none).1.success = true ∧
    assocGet (CDSL.create_pledge_request CDSL.initialState "TCS" (-5) none).2.demo_pledge_requests
        "PL12347" =
      some { unpledge_id := none, pledge_id := "PL12347", symbol := "TCS",
             isin := "INTCS12345", quantity := -5,
             status := "PENDING_AUTHORIZATION", reason := none } := by
  exact ⟨rfl, by decide⟩

/-- C7 amended: `create_pledge_request` performs no quantity validation.
Every call — any quantity, positive or not — succeeds, stores a new
PledgeRecord in PENDING_AUTHORIZATION carrying exactly the passed
quantity under the fresh id `PL<counter>`, returns that id, and leaves the
pledged holdings untouched. -/
theorem C7_create_pledge_request (s : CDSL.State) (stock_id : String) (quantity : Int)
    (reason : Option String) :
    (CDSL.create_pledge_request s stock_id quantity reason).1.success = true ∧
    (CDSL.create_pledge_request s stock_id quantity reason).1.pledge_id =
      some ("PL" ++ toString s.next_pledge_id) ∧
    (CDSL.create_pledge_request s stock_id quantity reason).1.status =
      some "PENDING_AUTHORIZATION" ∧
    assocGet (CDSL.create_pledge_request s stock_id quantity reason).2.demo_pledge_requests
        ("PL" ++ toString s.next_pledge_id) =
      some { unpledge_id := none, pledge_id := "PL" ++ toString s.next_pledge_id,
             symbol := stock_id, isin := "IN" ++ stock_id ++ "12345",
             quantity := quantity, status := "PENDING_AUTHORIZATION", reason := reason } ∧
    (CDSL.create_pledge_request s stock_id quantity reason).2.demo_pledged_holdings =
      s.demo_pledged_holdings :=
  ⟨rfl, rfl, rfl, assocGet_assocSet_self .., rfl⟩

/-! ## C6 -/

/-- C6 counterexample: `unpledge_request` for pledge PL12345, whose
remaining quantity is 5, with requested quantity 10 succeeds (storing the
clamped quantity min 10 5 = 5) instead of failing validation. -/
theorem C6_counterexample :
    (CDSL.unpledge_request CDSL.initialState "PL12345" 10 none).1.success = true ∧
    (CDSL.unpledge_request CDSL.initialState "PL12345" 10 none).1.status =
      some "PENDING_AUTHORIZATION" ∧
    (assocGet (CDSL.unpledge_request CDSL.initialState "PL12345" 10 none).2.demo_pledge_requests
        "UP12345").map CDSL.Request.quantity = some 5 := by
  refine ⟨rfl, rfl, by decide⟩

/-- C6 amended: `unpledge_request` fails NotFound exactly when the pledge
id is absent from the pledged holdings; when a holding is found no status
or quantity validation happens: the call succeeds and stores an
UnpledgeRecord in PENDING_AUTHORIZATION carrying
`min requested remaining` — an over-large request is clamped, not
rejected. -/
theorem C6_unpledge_request (s : CDSL.State) (pledge_id : String) (quantity : Int)
    (reason : Option String) :
    (s.demo_pledged_holdings.find? (fun p => p.pledge_id == pledge_id) = none →
      CDSL.unpledge_request s pledge_id quantity reason =
        ({ success := false, error := some ("Pledge ID " ++ pledge_id ++ " not found") }, s)) ∧
    (∀ pledge, s.demo_pledged_holdings.find? (fun p => p.pledge_id == pledge_id) = some pledge →
      (CDSL.unpledge_request s pledge_id quantity reason).1 =
        { success := true,
          message := some "Unpledge request created successfully. OTP has been sent to your registered mobile.",
          unpledge_id := some ("UP" ++ pledge_id.drop 2),
          status := some "PENDING_AUTHORIZATION" } ∧
      assocGet (CDSL.unpledge_request s pledge_id quantity reason).2.demo_pledge_requests
          ("UP" ++ pledge_id.drop 2) =
        some { unpledge_id := some ("UP" ++ pledge_id.drop 2), pledge_id := pledge_id,
               symbol := pledge.symbol, isin := pledge.isin,
               quantity := min quantity pledge.quantity,
               status := "PENDING_AUTHORIZATION", reason := reason } ∧
      (CDSL.unpledge_request s pledge_id quantity reason).2.demo_pledged_holdings =
        s.demo_pledged_holdings) := by
  constructor
  · intro h
    simp [CDSL.unpledge_request, h]
  · intro pledge h
    refine ⟨?_, ?_, ?_⟩ <;> simp [CDSL.unpledge_request, h, assocGet_assocSet_self]

/-- C6 witness: the not-found branch at an unknown id and the clamping
branch at PL12345 with requested quantity 7. -/
theorem C6_unpledge_request_witness :
    (CDSL.unpledge_request CDSL.initialState "PL99999" 3 none =
      ({ success := false, error := some "Pledge ID PL99999 not found" },
        CDSL.initialState)) ∧
    ((CDSL.unpledge_request CDSL.initialState "PL12345" 7 none).1 =
      { success := true,
        message := some "Unpledge request created successfully. OTP has been sent to your registered mobile.",
        unpledge_id := some "UP12345", status := some "PENDING_AUTHORIZATION" } ∧
      assocGet (CDSL.unpledge_request CDSL.initialState "PL12345" 7 none).2.demo_pledge_requests
          "UP12345" =
        some { unpledge_id := some "UP12345", pledge_id := "PL12345",
               symbol := CDSL.initHolding1.symbol, isin := CDSL.initHolding1.isin,
               quantity := min 7 CDSL.initHolding1.quantity,
               status := "PENDING_AUTHORIZATION", reason := none } ∧
      (CDSL.unpledge_request CDSL.initialState "PL12345" 7 none).2.demo_pledged_holdings =
        CDSL.initialState.demo_pledged_holdings) :=
  ⟨(C6_unpledge_request CDSL.initialState "PL99999" 3 none).1 (by decide),
    (C6_unpledge_request CDSL.initialState "PL12345" 7 none).2 CDSL.initHolding1 (by rfl)⟩

/-! ## C1 -/

/-- C1: `authorize_pledge` never consults the stored status. After pledge
request PL12347 is created and authorized (COMPLETED, one pledged-holding
entry), a second `authorize_pledge ("PL12347", "123456")` with the same
well-formed 6-digit OTP succeeds again and appends a second
pledged-holding entry for PL12347, instead of failing
NotFound/AlreadyCompleted with no side effect. -/
theorem C1_reauthorize_completed_reapplies :
    (assocGet ((CDSL.authorize_pledge
        ((CDSL.create_pledge_request CDSL.initialState "TCS" 5 none).2)
        "PL12347" (some "123456")).2.demo_pledge_requests) "PL12347").map
        CDSL.Request.status = some "COMPLETED" ∧
    CDSL.validOtp (some "123456") = true ∧
    ((CDSL.authorize_pledge ((CDSL.authorize_pledge
        ((CDSL.create_pledge_request CDSL.initialState "TCS" 5 none).2)
        "PL12347" (some "123456")).2) "PL12347" (some "123456")).1.success = true) ∧
    (((CDSL.authorize_pledge
        ((CDSL.create_pledge_request CDSL.initialState "TCS" 5 none).2)
        "PL12347" (some "123456")).2.demo_pledged_holdings.filter
        (fun h => h.pledge_id == "PL12347")).length = 1) ∧
    (((CDSL.authorize_pledge ((CDSL.authorize_pledge
        ((CDSL.create_pledge_request CDSL.initialState "TCS" 5 none).2)
        "PL12347" (some "123456")).2) "PL12347" (some "123456")).2.demo_pledged_holdings.filter
        (fun h => h.pledge_id == "PL12347")).length = 2) := by
  decide

/-! ## C5 -/

/-- C5 counterexample: with an adapter whose holdings, positions and
margin calls all succeed but a pledge service whose `get_pledged_holdings`
fails, `get_portfolio` does not return the failing sub-result: it returns
the combined success envelope with the pledged part silently dropped. -/
theorem C5_counterexample :
    Unified.get_portfolio
        { broker_adapter := some Unified.okAdapterFixture,
          connected_broker := some "zerodha",
          pledge_service :=
            some { success := false, error := some "Authentication failed with CDSL" } } =
      .combined Unified.okResult.payload Unified.okResult.payload
        Unified.okResult.payload none ∧
    ({ success := false, error := some "Authentication failed with CDSL" }
        : Unified.SubResult).success = false :=
  ⟨rfl, rfl⟩

/-- C5 amended: `get_portfolio` short-circuits and returns the failing
sub-result unchanged for the holdings, positions and margin calls, in that
order; a failing `get_pledged_holdings`, however, does not short-circuit:
the combined success envelope is returned with the `pledged_holdings` key
present exactly when the pledge lookup succeeded. -/
theorem C5_get_portfolio_composition (st : Unified.UState) (ad : Unified.Adapter)
    (had : st.broker_adapter = some ad) :
    (ad.holdings_result.success = false →
      Unified.get_portfolio st = .passthrough ad.holdings_result) ∧
    (ad.holdings_result.success = true → ad.positions_result.success = false →
      Unified.get_portfolio st = .passthrough ad.positions_result) ∧
    (ad.holdings_result.success = true → ad.positions_result.success = true →
      ad.margin_result.success = false →
      Unified.get_portfolio st = .passthrough ad.margin_result) ∧
    (ad.holdings_result.success = true → ad.positions_result.success = true →
      ad.margin_result.success = true →
      Unified.get_portfolio st =
        .combined ad.holdings_result.payload ad.positions_result.payload
          ad.margin_result.payload
          (match st.pledge_service with
           | some pledged_result =>
               if pledged_result.success then some pledged_result.payload else none
           | none => none)) := by
  refine ⟨?_, ?_, ?_, ?_⟩
  · intro h1
    simp [Unified.get_portfolio, had, h1]
  · intro h1 h2
    simp [Unified.get_portfolio, had, h1, h2]
  · intro h1 h2 h3
    simp [Unified.get_portfolio, had, h1, h2, h3]
  · intro h1 h2 h3
    simp [Unified.get_portfolio, had, h1, h2, h3]

/-- C5 witness: a failing positions call on an otherwise healthy adapter
is passed through unchanged. -/
theorem C5_get_portfolio_composition_witness :
    Unified.get_portfolio
        { broker_adapter :=
            some { Unified.okAdapterFixture with positions_result := Unified.badCredsResult },
          connected_broker := some "zerodha", pledge_service := some Unified.okResult } =
      .passthrough
        ({ Unified.okAdapterFixture with
            positions_result := Unified.badCredsResult } : Unified.Adapter).positions_result :=
  (C5_get_portfolio_composition
      { broker_adapter :=
          some { Unified.okAdapterFixture with positions_result := Unified.badCredsResult },
        connected_broker := some "zerodha", pledge_service := some Unified.okResult }
      { Unified.okAdapterFixture with positions_result := Unified.badCredsResult }
      rfl).2.1 rfl rfl

/-! ## C8 -/

/-- C8: the registry rejects (TypeError) a class that does not subclass
the `BrokerInterface` capability set and otherwise stores it under the
lowercased name, overwriting any previous binding; `create` of an
unregistered name fails with an unsupported-broker error listing the
supported names, and of a registered name returns an instance of that
class; `is_supported` and the supported-brokers listing are pure
lookups. -/
theorem C8_registry_behavior (reg : Factory.Registry) (name : String)
    (cls : Factory.AdapterClass) (config : List (String × String)) :
    (cls.is_broker_interface_subclass = false →
      Factory.register_adapter reg name cls =
        .error ("Adapter must implement BrokerInterface: " ++ cls.class_name)) ∧
    (cls.is_broker_interface_subclass = true →
      Factory.register_adapter reg name cls = .ok (assocSet reg (strToLower name) cls) ∧
      assocGet (assocSet reg (strToLower name) cls) (strToLower name) = some cls) ∧
    (assocGet reg (strToLower name) = none →
      Factory.create reg name config =
        .error ("Unsupported broker: " ++ strToLower name ++ ". Supported brokers: " ++
          String.intercalate ", " (Factory.get_supported_brokers reg))) ∧
    (∀ c, assocGet reg (strToLower name) = some c →
      Factory.create reg name config = .ok { cls := c, config := config }) ∧
    Factory.is_supported reg name = (assocGet reg (strToLower name)).isSome := by
  refine ⟨?_, ?_, ?_, ?_, rfl⟩
  · intro h
    simp [Factory.register_adapter, h]
  · intro h
    exact ⟨by simp [Factory.register_adapter, h], assocGet_assocSet_self ..⟩
  · intro h
    simp [Factory.create, h]
  · intro c h
    simp [Factory.create, h]

/-- C8 witness: a non-conforming class is rejected; re-registering
`zerodha` overwrites the stored class; creating `zerodha` returns an
instance of its class; creating the unregistered `upstox` fails with the
message listing the supported brokers. -/
theorem C8_registry_behavior_witness :
    (Factory.register_adapter Factory.initialRegistry "bad"
        (Factory.AdapterClass.mk "BadAdapter" false) =
      .error ("Adapter must implement BrokerInterface: " ++
        (Factory.AdapterClass.mk "BadAdapter" false).class_name)) ∧
    (Factory.register_adapter Factory.initialRegistry "zerodha" Factory.FYERSAdapterClass =
        .ok (assocSet Factory.initialRegistry (strToLower "zerodha")
          Factory.FYERSAdapterClass) ∧
      assocGet (assocSet Factory.initialRegistry (strToLower "zerodha")
          Factory.FYERSAdapterClass) (strToLower "zerodha") =
        some Factory.FYERSAdapterClass) ∧
    (Factory.create Factory.initialRegistry "zerodha" [] =
      .ok { cls := Factory.ZerodhaAdapterClass, config := [] }) ∧
    (Factory.create Factory.initialRegistry "upstox" [] =
      .error ("Unsupported broker: " ++ strToLower "upstox" ++ ". Supported brokers: " ++
        String.intercalate ", " (Factory.get_supported_brokers Factory.initialRegistry))) :=
  ⟨(C8_registry_behavior Factory.initialRegistry "bad"
      (Factory.AdapterClass.mk "BadAdapter" false) []).1 rfl,
   (C8_registry_behavior Factory.initialRegistry "zerodha"
      Factory.FYERSAdapterClass []).2.1 rfl,
   (C8_registry_behavior Factory.initialRegistry "zerodha"
      Factory.ZerodhaAdapterClass []).2.2.2.1 Factory.ZerodhaAdapterClass (by decide),
   (C8_registry_behavior Factory.initialRegistry "upstox"
      Factory.ZerodhaAdapterClass []).2.2.1 (by decide)⟩

/-! ## C9 -/

/-- C9: with no broker adapter bound, `disconnect` returns a success
result and leaves the state unchanged, while `place_order`,
`get_order_status` and `get_order_history` each return the failing
no-broker-connected envelope. -/
theorem C9_no_broker_connected (st : Unified.UState) (h : st.broker_adapter = none)
    (order_params : List (String × String)) (order_id : String) :
    Unified.disconnect st = ({ success := true, message := some "No broker connected" }, st) ∧
    Unified.place_order st order_params = Unified.noBrokerError ∧
    Unified.get_order_status st order_id = Unified.noBrokerError ∧
    Unified.get_order_history st = Unified.noBrokerError ∧
    Unified.noBrokerError = { success := false, error := some "No broker connected" } := by
  obtain ⟨ba, cb, ps⟩ := st
  cases h
  exact ⟨rfl, rfl, rfl, rfl, rfl⟩

/-- C9 witness: the no-broker behavior at the freshly initialized
service state. -/
theorem C9_no_broker_connected_witness :
    Unified.disconnect
        { broker_adapter := none, connected_broker := none,
          pledge_service := some Unified.okResult } =
      ({ success := true, message := some "No broker connected" },
        { broker_adapter := none, connected_broker := none,
          pledge_service := some Unified.okResult }) ∧
    Unified.place_order
        { broker_adapter := none, connected_broker := none,
          pledge_service := some Unified.okResult } [] = Unified.noBrokerError ∧
    Unified.get_order_status
        { broker_adapter := none, connected_broker := none,
          pledge_service := some Unified.okResult } "ORD1" = Unified.noBrokerError ∧
    Unified.get_order_history
        { broker_adapter := none, connected_broker := none,
          pledge_service := some Unified.okResult } = Unified.noBrokerError ∧
    Unified.noBrokerError = { success := false, error := some "No broker connected" } :=
  C9_no_broker_connected
    { broker_adapter := none, connected_broker := none,
      pledge_service := some Unified.okResult } rfl [] "ORD1"

/-! ## C10 -/

/-- C10: for a supported broker name, `connect` replaces the stored
adapter with a freshly constructed one (session token `none`) before
attempting the adapter connection; when that connection fails, the
result is the failure and the service keeps the new unconnected adapter
while `connected_broker` still carries the name of the previously
connected broker — the observable state changes on error. -/
theorem C10_connect_not_atomic (st : Unified.UState) (env : String → Unified.Adapter)
    (broker : String)
    (hsup : Factory.is_supported Factory.initialRegistry broker = true)
    (hfail : (Unified.construct env broker).connect_result.success = false) :
    Unified.connect st env broker =
      ((Unified.construct env broker).connect_result,
        { st with broker_adapter := some (Unified.construct env broker) }) ∧
    (Unified.connect st env broker).2.connected_broker = st.connected_broker ∧
    (Unified.connect st env broker).2.broker_adapter =
      some (Unified.construct env broker) ∧
    (Unified.construct env broker).access_token = none := by
  have h1 : Unified.connect st env broker =
      ((Unified.construct env broker).connect_result,
        { st with broker_adapter := some (Unified.construct env broker) }) := by
    simp [Unified.connect, hsup, hfail]
  exact ⟨h1, by rw [h1], by rw [h1], rfl⟩

/-- C10 witness: a service connected to zerodha, asked to connect to
fyers with failing credentials, ends up holding a fresh unconnected fyers
adapter while `connected_broker` still says zerodha. -/
theorem C10_connect_not_atomic_witness :
    Unified.connect
        { broker_adapter := some Unified.okAdapterFixture,
          connected_broker := some "zerodha", pledge_service := some Unified.okResult }
        (fun _ => Unified.failingConnectAdapterFixture) "fyers" =
      ((Unified.construct (fun _ => Unified.failingConnectAdapterFixture) "fyers").connect_result,
        { ({ broker_adapter := some Unified.okAdapterFixture,
             connected_broker := some "zerodha",
             pledge_service := some Unified.okResult } : Unified.UState) with
            broker_adapter :=
              some (Unified.construct (fun _ => Unified.failingConnectAdapterFixture) "fyers") }) ∧
    (Unified.connect
        { broker_adapter := some Unified.okAdapterFixture,
          connected_broker := some "zerodha", pledge_service := some Unified.okResult }
        (fun _ => Unified.failingConnectAdapterFixture) "fyers").2.connected_broker =
      ({ broker_adapter := some Unified.okAdapterFixture,
         connected_broker := some "zerodha",
         pledge_service := some Unified.okResult } : Unified.UState).connected_broker ∧
    (Unified.connect
        { broker_adapter := some Unified.okAdapterFixture,
          connected_broker := some "zerodha", pledge_service := some Unified.okResult }
        (fun _ => Unified.failingConnectAdapterFixture) "fyers").2.broker_adapter =
      some (Unified.construct (fun _ => Unified.failingConnectAdapterFixture) "fyers") ∧
    (Unified.construct (fun _ => Unified.failingConnectAdapterFixture) "fyers").access_token =
      none :=
  C10_connect_not_atomic
    { broker_adapter := some Unified.okAdapterFixture,
      connected_broker := some "zerodha", pledge_service := some Unified.okResult }
    (fun _ => Unified.failingConnectAdapterFixture) "fyers" (by decide) rfl

/-! ## C2 -/

theorem lifecycle_uid : CDSL.unpledgeIdOf "PL12345" = "UP12345" := by decide

theorem lifecycle_uid_app : "UP" ++ String.drop "PL12345" 2 = "UP12345" := by decide

theorem up_not_PL : strStartsWith "UP12345" "PL" = false := by decide

theorem up_is_UP : strStartsWith "UP12345" "UP" = true := by decide

theorem lifecycle_step_preserves (q0 t : Int) (s : CDSL.State) (op : CDSL.UnpledgeOp)
    (hg : CDSL.GoodState q0 t s)
    (hok : (match op with
            | CDSL.UnpledgeOp.authorize _ =>
                match assocGet s.demo_pledge_requests (CDSL.unpledgeIdOf "PL12345") with
                | some req => req.status != "COMPLETED"
                | none => true
            | CDSL.UnpledgeOp.request _ _ => true) = true) :
    CDSL.GoodState q0 (t + CDSL.opDeduction "PL12345" s op)
      (CDSL.lifecycleStep "PL12345" s op) := by
  cases op with
  | request q r =>
      simp only [CDSL.opDeduction, add_zero]
      rcases hg with ⟨hemp, ht⟩ | ⟨h, hh, hpid, hpos, ht, hbound⟩
      · have hstep : CDSL.lifecycleStep "PL12345" s (.request q r) = s := by
          simp [CDSL.lifecycleStep, CDSL.unpledge_request, hemp]
        rw [hstep]
        exact Or.inl ⟨hemp, ht⟩
      · have hstep : CDSL.lifecycleStep "PL12345" s (.request q r) =
            CDSL.State.mk s.demo_pledged_holdings
              (assocSet s.demo_pledge_requests "UP12345"
                { unpledge_id := some "UP12345", pledge_id := "PL12345",
                  symbol := h.symbol, isin := h.isin, quantity := min q h.quantity,
                  status := "PENDING_AUTHORIZATION", reason := r })
              s.next_pledge_id := by
          simp [CDSL.lifecycleStep, CDSL.unpledge_request, hh, hpid, lifecycle_uid_app]
        rw [hstep]
        right
        refine ⟨h, hh, hpid, hpos, ht, ?_⟩
        intro req2 hreq2
        rw [assocGet_assocSet_self] at hreq2
        cases hreq2
        exact ⟨rfl, fun _ => min_le_right q h.quantity⟩
  | authorize otp =>
      rw [lifecycle_uid] at hok
      cases hreq : assocGet s.demo_pledge_requests "UP12345" with
      | none =>
          have hstep : CDSL.lifecycleStep "PL12345" s (.authorize otp) = s := by
            simp [CDSL.lifecycleStep, CDSL.authorize_pledge, lifecycle_uid, hreq]
          have hded : CDSL.opDeduction "PL12345" s (.authorize otp) = 0 := by
            simp [CDSL.opDeduction, lifecycle_uid, hreq]
          rw [hstep, hded, add_zero]
          exact hg
      | some req =>
          rw [hreq] at hok
          have hstatus : req.status ≠ "COMPLETED" := by simpa using hok
          cases hv : CDSL.validOtp otp with
          | false =>
              have hstep : CDSL.lifecycleStep "PL12345" s (.authorize otp) = s := by
                simp [CDSL.lifecycleStep, CDSL.authorize_pledge, lifecycle_uid, hreq, hv]
              have hded : CDSL.opDeduction "PL12345" s (.authorize otp) = 0 := by
                simp [CDSL.opDeduction, lifecycle_uid, hreq, hv]
              rw [hstep, hded, add_zero]
              exact hg
          | true =>
              have hstep : CDSL.lifecycleStep "PL12345" s (.authorize otp) =
                  CDSL.State.mk
                    (CDSL.reduce_pledged req.pledge_id req.quantity
                      s.demo_pledged_holdings)
                    (assocSet s.demo_pledge_requests "UP12345"
                      { req with status := "COMPLETED" })
                    s.next_pledge_id := by
                simp [CDSL.lifecycleStep, CDSL.authorize_pledge, lifecycle_uid, hreq, hv,
                  up_not_PL, up_is_UP]
              have hded : CDSL.opDeduction "PL12345" s (.authorize otp) =
                  (if s.demo_pledged_holdings.any
                      (fun hh => hh.pledge_id == req.pledge_id) then req.quantity else 0) := by
                simp [CDSL.opDeduction, lifecycle_uid, hreq, hv]
              rcases hg with ⟨hemp, ht⟩ | ⟨h, hh, hpid, hpos, ht, hbound⟩
              · have hded0 : CDSL.opDeduction "PL12345" s (.authorize otp) = 0 := by
                  rw [hded, hemp]
                  simp
                rw [hstep, hded0, add_zero]
                left
                constructor
                · show CDSL.reduce_pledged req.pledge_id req.quantity
                      s.demo_pledged_holdings = []
                  rw [hemp]
                  rfl
                · exact ht
              · obtain ⟨hbpid, hbq0⟩ := hbound req hreq
                have hbq : req.quantity ≤ h.quantity := hbq0 hstatus
                have hded1 : CDSL.opDeduction "PL12345" s (.authorize otp) = req.quantity := by
                  rw [hded, hh, hbpid]
                  simp [hpid]
                have hred : CDSL.reduce_pledged req.pledge_id req.quantity
                    s.demo_pledged_holdings =
                    (if h.quantity - req.quantity ≤ 0 then []
                     else [{ h with quantity := h.quantity - req.quantity }]) := by
                  rw [hh]
                  simp [CDSL.reduce_pledged, hpid, hbpid]
                rw [hstep, hded1]
                by_cases hle : h.quantity - req.quantity ≤ 0
                · left
                  constructor
                  · show CDSL.reduce_pledged req.pledge_id req.quantity
                        s.demo_pledged_holdings = []
                    rw [hred, if_pos hle]
                  · omega
                · right
                  refine ⟨{ h with quantity := h.quantity - req.quantity }, ?_, hpid, ?_, ?_, ?_⟩
                  · show CDSL.reduce_pledged req.pledge_id req.quantity
                        s.demo_pledged_holdings = _
                    rw [hred, if_neg hle]
                  · simpa using by omega
                  · simpa using by omega
                  · intro req2 hreq2
                    rw [assocGet_assocSet_self] at hreq2
                    cases hreq2
                    refine ⟨hbpid, ?_⟩
                    intro hc
                    exact absurd rfl hc

theorem lifecycle_run_preserves (q0 : Int) (ops : List CDSL.UnpledgeOp) :
    ∀ (s : CDSL.State) (t : Int), CDSL.GoodState q0 t s →
      CDSL.atMostOnceAuth "PL12345" s ops = true →
      CDSL.GoodState q0 (t + CDSL.runTotal "PL12345" s ops)
        (CDSL.runLifecycle "PL12345" s ops) := by
  induction ops with
  | nil =>
      intro s t hg _
      simpa [CDSL.runTotal, CDSL.runLifecycle] using hg
  | cons op ops ih =>
      intro s t hg hsafe
      simp only [CDSL.atMostOnceAuth, Bool.and_eq_true] at hsafe
      have h1 := lifecycle_step_preserves q0 t s op hg hsafe.1
      have h2 := ih _ _ h1 hsafe.2
      simp only [CDSL.runTotal, CDSL.runLifecycle]
      rw [← add_assoc]
      exact h2

theorem lifecycleInit_good (q0 : Int) (hq : 0 < q0) :
    CDSL.GoodState q0 0 (CDSL.lifecycleInit q0) := by
  right
  refine ⟨{ CDSL.initHolding1 with quantity := q0 }, rfl, rfl, hq, by simp, ?_⟩
  intro req hreq
  simp [CDSL.lifecycleInit, assocGet] at hreq

/-- C2 amended: for a pledged record of quantity `q0 > 0` and any sequence
of unpledge requests and authorizations in which each unpledge request is
authorized at most once (never re-authorized after it is COMPLETED), the
cumulative quantity removed by completed unpledges never exceeds `q0`: the
record remains visible through `get_pledged_holdings` with positive
remaining quantity `q0 - total`, and it is removed exactly when the
cumulative total reaches `q0`, i.e. when its remaining quantity reaches 0
— never negative. (Without the at-most-once restriction the code
re-applies authorizations; see the counterexample.) -/
theorem C2_lifecycle_invariant (q0 : Int) (hq : 0 < q0) (ops : List CDSL.UnpledgeOp)
    (hsafe : CDSL.atMostOnceAuth "PL12345" (CDSL.lifecycleInit q0) ops = true) :
    (∀ r : Int,
      CDSL.remaining (CDSL.runLifecycle "PL12345" (CDSL.lifecycleInit q0) ops) "PL12345" =
          some r →
        0 < r ∧ CDSL.runTotal "PL12345" (CDSL.lifecycleInit q0) ops = q0 - r) ∧
    (CDSL.remaining (CDSL.runLifecycle "PL12345" (CDSL.lifecycleInit q0) ops) "PL12345" =
        none →
      CDSL.runTotal "PL12345" (CDSL.lifecycleInit q0) ops = q0) := by
  have hgood := lifecycle_run_preserves q0 ops (CDSL.lifecycleInit q0) 0
    (lifecycleInit_good q0 hq) hsafe
  rw [zero_add] at hgood
  rcases hgood with ⟨hemp, ht⟩ | ⟨h, hh, hpid, hpos, ht, _⟩
  · constructor
    · intro r hr
      rw [CDSL.remaining, CDSL.get_pledged_holdings, hemp] at hr
      simp at hr
    · intro _
      exact ht
  · constructor
    · intro r hr
      rw [CDSL.remaining, CDSL.get_pledged_holdings, hh] at hr
      simp [List.find?, hpid] at hr
      constructor
      · omega
      · omega
    · intro hr
      rw [CDSL.remaining, CDSL.get_pledged_holdings, hh] at hr
      simp [List.find?, hpid] at hr

/-- C2 witness: pledging 5, requesting an unpledge of 3 and authorizing it
once leaves the record visible with remaining quantity 2 = 5 − 3. -/
theorem C2_lifecycle_invariant_witness :
    0 < (5 : Int) ∧
    CDSL.atMostOnceAuth "PL12345" (CDSL.lifecycleInit 5)
      [CDSL.UnpledgeOp.request 3 none, CDSL.UnpledgeOp.authorize (some "123456")] = true ∧
    (0 < (2 : Int) ∧
      CDSL.runTotal "PL12345" (CDSL.lifecycleInit 5)
        [CDSL.UnpledgeOp.request 3 none, CDSL.UnpledgeOp.authorize (some "123456")] = 5 - 2) :=
  ⟨by decide, by decide,
    (C2_lifecycle_invariant 5 (by decide)
        [CDSL.UnpledgeOp.request 3 none, CDSL.UnpledgeOp.authorize (some "123456")]
        (by decide)).1 2 (by decide)⟩

/-- C2 counterexample: starting from a pledged record of quantity 5, the
trace [unpledge-request 3, authorize, authorize] — the second
authorization re-applying the already-COMPLETED unpledge — removes the
record from the pledged holdings although the cumulative quantity removed
by completed unpledge authorizations is 6 > 5 and the remaining quantity
never passed through 0: the claimed invariant is false on the code. -/
theorem C2_counterexample :
    CDSL.remaining
        (CDSL.runLifecycle "PL12345" (CDSL.lifecycleInit 5)
          [CDSL.UnpledgeOp.request 3 none, CDSL.UnpledgeOp.authorize (some "123456"),
            CDSL.UnpledgeOp.authorize (some "123456")]) "PL12345" = none ∧
    CDSL.runTotal "PL12345" (CDSL.lifecycleInit 5)
      [CDSL.UnpledgeOp.request 3 none, CDSL.UnpledgeOp.authorize (some "123456"),
        CDSL.UnpledgeOp.authorize (some "123456")] = 6 := by
  decide

end AIMarginOptimize
